import Mathlib

/-!
Shallow embedding of the scoring engine of the reviewrot-api repository
(`src/server.js`, `src/unnamed/part_000`, `src/unnamed/part_001`), together
with spec-side definitions used to compare the implementations against the
natural-language specification.

JS `number` arithmetic on the integer inputs and the small decimal constants
used by these functions is modelled by exact rational arithmetic; on every
value reachable in these functions the IEEE-754 double results coincide with
the exact rational results (the operands are small and no intermediate result
comes within an ulp of a rounding boundary).

Because rational arithmetic is not kernel-reducible here, each scoring
function also has a natural-number mirror (suffix `Nat`, or the spec-side
definition itself) together with a proved bridge lemma, and all concrete
evaluation happens on the mirror.
-/

/-- Round-half-up on rationals: the behaviour of JS `Math.round`
(for every real `x`, `Math.round x = ⌊x + 1/2⌋`, including negatives). -/
def jsRound (x : ℚ) : ℤ := ⌊x + 1/2⌋

/-- Behaviour of JS `Math.floor` on rationals. -/
def jsFloor (x : ℚ) : ℤ := ⌊x⌋

/-- Function `calculateRotScore` from `src/unnamed/part_000` (lines 21-27) and
`src/unnamed/part_001` (lines 26-32); the two definitions are textually
identical, so they are embedded once. -/
def calculateRotScore (daysSinceReview : ℚ) : ℤ :=
  if daysSinceReview ≤ 14 then jsRound ((daysSinceReview / 14) * 10)
  else if daysSinceReview ≤ 21 then jsRound (10 + ((daysSinceReview - 14) / 7) * 20)
  else if daysSinceReview ≤ 56 then jsRound (30 + ((daysSinceReview - 21) / 35) * 30)
  else if daysSinceReview ≤ 70 then jsRound (60 + ((daysSinceReview - 56) / 14) * 20)
  else min 100 (jsRound (80 + ((daysSinceReview - 70) / 30) * 20))

/-- Result record of `calculateRotScore` in `src/server.js` (lines 54-80):
that variant returns a score together with a status label and an urgency. -/
structure RotScoreResult where
  rotScore : ℤ
  status : String
  urgency : String
deriving DecidableEq

/-- Function `calculateRotScore` from `src/server.js` (lines 54-80): a
floor-based variant with its own constants, followed by a final
`Math.min(rotScore, 100)` clamp. -/
def calculateRotScoreServer (daysSinceReview : ℚ) : RotScoreResult :=
  let r : RotScoreResult :=
    if daysSinceReview ≤ 14 then
      ⟨jsFloor (daysSinceReview * 0.7), "Healthy Heartbeat", "low"⟩
    else if daysSinceReview ≤ 21 then
      ⟨jsFloor (11 + (daysSinceReview - 14) * 2.7), "Early Decay", "medium"⟩
    else if daysSinceReview ≤ 56 then
      ⟨jsFloor (31 + (daysSinceReview - 21) * 0.85), "Freshness Failing", "high"⟩
    else if daysSinceReview ≤ 70 then
      ⟨jsFloor (61 + (daysSinceReview - 56) * 1.35), "Rot Zone", "critical"⟩
    else
      ⟨min 100 (jsFloor (81 + (daysSinceReview - 70) * 0.5)), "Critical Decay", "critical"⟩
  { r with rotScore := min r.rotScore 100 }

/-- Round-half-up of the fraction `p / q` computed with natural-number
arithmetic (`⌊p / q + 1/2⌋ = (2 * p + q) / (2 * q)` for `q > 0`). -/
def specRound (p q : ℕ) : ℕ := (2 * p + q) / (2 * q)

/-- Rot-score formula exactly as the specification states it (spec section 4.1
band table): `round(days / 14 * 10)` for days 0-14, `round(10 + (days - 14) / 7 * 20)`
for 15-21, `round(30 + (days - 21) / 35 * 30)` for 22-56,
`round(60 + (days - 56) / 14 * 20)` for 57-70, and
`min(100, round(80 + (days - 70) / 30 * 20))` above 70, with round-half-up.
Each band value is written as a single fraction: for example
`10 + (d - 14) / 7 * 20 = (70 + (d - 14) * 20) / 7`. -/
def rotScoreSpec (days : ℕ) : ℕ :=
  if days ≤ 14 then specRound (days * 10) 14
  else if days ≤ 21 then specRound (70 + (days - 14) * 20) 7
  else if days ≤ 56 then specRound (1050 + (days - 21) * 30) 35
  else if days ≤ 70 then specRound (840 + (days - 56) * 20) 14
  else min 100 (specRound (2400 + (days - 70) * 20) 30)

/-- Natural-number mirror of the `src/server.js` rot score: each band value of
the floor-based variant written as a single fraction under floor division, for
example `11 + (d - 14) * 2.7 = (110 + 27 * (d - 14)) / 10`. -/
def serverRotNat (d : ℕ) : ℕ :=
  let r :=
    if d ≤ 14 then 7 * d / 10
    else if d ≤ 21 then (110 + 27 * (d - 14)) / 10
    else if d ≤ 56 then (620 + 17 * (d - 21)) / 20
    else if d ≤ 70 then (1220 + 27 * (d - 56)) / 20
    else min 100 ((162 + (d - 70)) / 2)
  min r 100

/-- Evaluation lemma: `jsRound` of a fraction of naturals is `specRound`. -/
theorem jsRound_eq_specRound (p q : ℕ) (hq : 0 < q) {x : ℚ}
    (hx : x = (p : ℚ) / (q : ℚ)) : jsRound x = (specRound p q : ℤ) := by
  subst hx
  unfold jsRound specRound
  have hq' : ((q : ℚ)) ≠ 0 := by
    exact_mod_cast hq.ne'
  have harg : (p : ℚ) / (q : ℚ) + 1 / 2 = ((2 * p + q : ℕ) : ℚ) / ((2 * q : ℕ) : ℚ) := by
    push_cast
    field_simp
    ring
  rw [harg, Rat.floor_natCast_div_natCast]
  norm_cast

/-- Evaluation lemma: `jsFloor` of a fraction of naturals is floor division. -/
theorem jsFloor_eq_div (p q : ℕ) {x : ℚ}
    (hx : x = (p : ℚ) / (q : ℚ)) : jsFloor x = ((p / q : ℕ) : ℤ) := by
  subst hx
  unfold jsFloor
  rw [Rat.floor_natCast_div_natCast]
  norm_cast

/-- Bridge lemma: at every natural-number input, the round-based
`calculateRotScore` of `part_000`/`part_001` computes exactly the
specification's band formulas. -/
theorem calculateRotScore_eq_spec (d : ℕ) :
    calculateRotScore (d : ℚ) = (rotScoreSpec d : ℤ) := by
  unfold calculateRotScore rotScoreSpec
  by_cases h1 : d ≤ 14
  · rw [if_pos (show (d : ℚ) ≤ 14 by exact_mod_cast h1), if_pos h1]
    exact jsRound_eq_specRound (d * 10) 14 (by norm_num) (by push_cast; ring)
  · have h1' : ¬ ((d : ℚ) ≤ 14) := by exact_mod_cast h1
    rw [if_neg h1', if_neg h1]
    by_cases h2 : d ≤ 21
    · rw [if_pos (show (d : ℚ) ≤ 21 by exact_mod_cast h2), if_pos h2]
      refine jsRound_eq_specRound (70 + (d - 14) * 20) 7 (by norm_num) ?_
      rw [Nat.cast_add, Nat.cast_mul, Nat.cast_sub (by omega : 14 ≤ d)]
      push_cast
      field_simp
      ring
    · have h2' : ¬ ((d : ℚ) ≤ 21) := by exact_mod_cast h2
      rw [if_neg h2', if_neg h2]
      by_cases h3 : d ≤ 56
      · rw [if_pos (show (d : ℚ) ≤ 56 by exact_mod_cast h3), if_pos h3]
        refine jsRound_eq_specRound (1050 + (d - 21) * 30) 35 (by norm_num) ?_
        rw [Nat.cast_add, Nat.cast_mul, Nat.cast_sub (by omega : 21 ≤ d)]
        push_cast
        field_simp
        ring
      · have h3' : ¬ ((d : ℚ) ≤ 56) := by exact_mod_cast h3
        rw [if_neg h3', if_neg h3]
        by_cases h4 : d ≤ 70
        · rw [if_pos (show (d : ℚ) ≤ 70 by exact_mod_cast h4), if_pos h4]
          refine jsRound_eq_specRound (840 + (d - 56) * 20) 14 (by norm_num) ?_
          rw [Nat.cast_add, Nat.cast_mul, Nat.cast_sub (by omega : 56 ≤ d)]
          push_cast
          field_simp
          ring
        · have h4' : ¬ ((d : ℚ) ≤ 70) := by exact_mod_cast h4
          rw [if_neg h4', if_neg h4]
          have hr := jsRound_eq_specRound (2400 + (d - 70) * 20) 30 (by norm_num)
            (x := 80 + (((d : ℚ)) - 70) / 30 * 20) ?_
          · rw [hr, Nat.cast_min]
            norm_num
          · rw [Nat.cast_add, Nat.cast_mul, Nat.cast_sub (by omega : 70 ≤ d)]
            push_cast
            field_simp
            ring

/-- Bridge lemma: at every natural-number input, the `src/server.js` rot score
computes exactly its natural-number mirror. -/
theorem calculateRotScoreServer_eq_nat (d : ℕ) :
    (calculateRotScoreServer (d : ℚ)).rotScore = (serverRotNat d : ℤ) := by
  unfold calculateRotScoreServer serverRotNat
  dsimp only
  by_cases h1 : d ≤ 14
  · rw [if_pos (show (d : ℚ) ≤ 14 by exact_mod_cast h1), if_pos h1]
    dsimp only
    rw [jsFloor_eq_div (7 * d) 10
      (by rw [show (0.7 : ℚ) = 7 / 10 by norm_num]; push_cast; ring)]
    rw [Nat.cast_min]
    norm_num
  · have h1' : ¬ ((d : ℚ) ≤ 14) := by exact_mod_cast h1
    rw [if_neg h1', if_neg h1]
    by_cases h2 : d ≤ 21
    · rw [if_pos (show (d : ℚ) ≤ 21 by exact_mod_cast h2), if_pos h2]
      dsimp only
      rw [jsFloor_eq_div (110 + 27 * (d - 14)) 10 ?_]
      · rw [Nat.cast_min]; norm_num
      · rw [Nat.cast_add, Nat.cast_mul, Nat.cast_sub (by omega : 14 ≤ d)]
        rw [show (2.7 : ℚ) = 27 / 10 by norm_num]
        push_cast
        field_simp
        ring
    · have h2' : ¬ ((d : ℚ) ≤ 21) := by exact_mod_cast h2
      rw [if_neg h2', if_neg h2]
      by_cases h3 : d ≤ 56
      · rw [if_pos (show (d : ℚ) ≤ 56 by exact_mod_cast h3), if_pos h3]
        dsimp only
        rw [jsFloor_eq_div (620 + 17 * (d - 21)) 20 ?_]
        · rw [Nat.cast_min]; norm_num
        · rw [Nat.cast_add, Nat.cast_mul, Nat.cast_sub (by omega : 21 ≤ d)]
          rw [show (0.85 : ℚ) = 17 / 20 by norm_num]
          push_cast
          field_simp
          ring
      · have h3' : ¬ ((d : ℚ) ≤ 56) := by exact_mod_cast h3
        rw [if_neg h3', if_neg h3]
        by_cases h4 : d ≤ 70
        · rw [if_pos (show (d : ℚ) ≤ 70 by exact_mod_cast h4), if_pos h4]
          dsimp only
          rw [jsFloor_eq_div (1220 + 27 * (d - 56)) 20 ?_]
          · rw [Nat.cast_min]; norm_num
          · rw [Nat.cast_add, Nat.cast_mul, Nat.cast_sub (by omega : 56 ≤ d)]
            rw [show (1.35 : ℚ) = 27 / 20 by norm_num]
            push_cast
            field_simp
            ring
        · have h4' : ¬ ((d : ℚ) ≤ 70) := by exact_mod_cast h4
          rw [if_neg h4', if_neg h4]
          dsimp only
          rw [jsFloor_eq_div (162 + (d - 70)) 2 ?_]
          · rw [Nat.cast_min, Nat.cast_min]; norm_num
          · rw [Nat.cast_add, Nat.cast_sub (by omega : 70 ≤ d)]
            rw [show (0.5 : ℚ) = 1 / 2 by norm_num]
            push_cast
            field_simp
            ring

/-- Above 99 days the spec band formula saturates at 100. -/
theorem rotScoreSpec_eq_100 (d : ℕ) (hd : 100 ≤ d) : rotScoreSpec d = 100 := by
  unfold rotScoreSpec specRound
  rw [if_neg (by omega), if_neg (by omega), if_neg (by omega), if_neg (by omega)]
  have h : 100 ≤ (2 * (2400 + (d - 70) * 20) + 30) / (2 * 30) := by
    rw [Nat.le_div_iff_mul_le (by norm_num)]
    omega
  exact min_eq_left h

/-- Above 107 days the `src/server.js` variant saturates at 100. -/
theorem serverRotNat_eq_100 (d : ℕ) (hd : 108 ≤ d) : serverRotNat d = 100 := by
  unfold serverRotNat
  dsimp only
  rw [if_neg (by omega), if_neg (by omega), if_neg (by omega), if_neg (by omega)]
  have h : 100 ≤ (162 + (d - 70)) / 2 := by
    rw [Nat.le_div_iff_mul_le (by norm_num)]
    omega
  rw [min_eq_left h]
  norm_num

/-- Step inequality of the spec band formula on its non-saturated range. -/
theorem rotScoreSpec_step : ∀ d : ℕ, d < 110 → rotScoreSpec d ≤ rotScoreSpec (d + 1) := by
  decide

/-- Step inequality of the server variant on its non-saturated range. -/
theorem serverRotNat_step : ∀ d : ℕ, d < 120 → serverRotNat d ≤ serverRotNat (d + 1) := by
  decide

/-- Bounded part of the range bound of the spec band formula. -/
theorem rotScoreSpec_le_100_bounded : ∀ d : ℕ, d < 110 → rotScoreSpec d ≤ 100 := by
  decide

/-- Range bound of the spec band formula. -/
theorem rotScoreSpec_le_100 (d : ℕ) : rotScoreSpec d ≤ 100 := by
  rcases lt_or_ge d 110 with h | h
  · exact rotScoreSpec_le_100_bounded d h
  · rw [rotScoreSpec_eq_100 d (by omega)]

/-- Monotonicity of the spec band formula. -/
theorem rotScoreSpec_mono : Monotone rotScoreSpec := by
  apply monotone_nat_of_le_succ
  intro d
  rcases lt_or_ge d 110 with h | h
  · exact rotScoreSpec_step d h
  · rw [rotScoreSpec_eq_100 d (by omega), rotScoreSpec_eq_100 (d + 1) (by omega)]

/-- Monotonicity of the server variant mirror. -/
theorem serverRotNat_mono : Monotone serverRotNat := by
  apply monotone_nat_of_le_succ
  intro d
  rcases lt_or_ge d 120 with h | h
  · exact serverRotNat_step d h
  · rw [serverRotNat_eq_100 d (by omega), serverRotNat_eq_100 (d + 1) (by omega)]

/-- Function `calculateReviewHealthScore` from `src/unnamed/part_001`
(lines 35-46): weighted sum of a freshness, a volume and a quality component. -/
def calculateReviewHealthScore (daysSinceReview totalReviews avgRating : ℚ) : ℤ :=
  let freshnessScore : ℚ := 100 - (calculateRotScore daysSinceReview : ℚ)
  let volumeScore : ℚ := min 100 ((totalReviews / 100) * 100)
  let qualityScore : ℚ := (avgRating / 5) * 100
  jsRound (freshnessScore * 0.4 + volumeScore * 0.3 + qualityScore * 0.3)

/-- Clamp an integer to the interval [0, 100]. -/
def clamp100 (n : ℤ) : ℤ := max 0 (min 100 n)

/-- Argument of the rounding step in the spec's review-health formula
(spec section 4.3): `0.4 * (100 - rotScore d) + 0.3 * min 100 (totalReviews / 100 * 100)
+ 0.3 * (avgRating / 5 * 100)`. -/
def reviewHealthArg (days totalReviews : ℕ) (avgRating : ℚ) : ℚ :=
  0.4 * (100 - (rotScoreSpec days : ℚ)) + 0.3 * min 100 ((totalReviews : ℚ) / 100 * 100) +
    0.3 * (avgRating / 5 * 100)

/-- Review-health formula exactly as the specification states it: the weighted
sum rounded to nearest and clamped to [0, 100]. -/
def reviewHealthSpec (days totalReviews : ℕ) (avgRating : ℚ) : ℤ :=
  clamp100 (jsRound (reviewHealthArg days totalReviews avgRating))

/-- Overall-score computation of the `/api/full-audit` endpoint in
`src/unnamed/part_001` (lines 559-564): a fixed 35/25/20/20 weighted average of
the four sub-scores, rounded; it is a function of exactly those four values. -/
def overallScore (reviewHealthScore profileScore photoScore responseScore : ℚ) : ℤ :=
  jsRound (reviewHealthScore * 0.35 + profileScore * 0.25 + photoScore * 0.20 +
    responseScore * 0.20)

/-- Overall-score formula exactly as the specification states it (section 4.7):
`round(reviewHealth * 0.35 + profile * 0.25 + photo * 0.20 + response * 0.20)`,
clamped to [0, 100]. -/
def overallSpec (reviewHealth profile photo response : ℤ) : ℤ :=
  clamp100 (jsRound ((reviewHealth : ℚ) * 0.35 + (profile : ℚ) * 0.25 +
    (photo : ℚ) * 0.20 + (response : ℚ) * 0.20))

/-- Rounding a nonnegative value gives a nonnegative integer. -/
theorem jsRound_nonneg {x : ℚ} (h : 0 ≤ x) : 0 ≤ jsRound x := by
  unfold jsRound
  exact Int.le_floor.mpr (by push_cast; linarith)

/-- Rounding a value bounded by an integer stays bounded by that integer. -/
theorem jsRound_le {x : ℚ} {n : ℤ} (h : x ≤ (n : ℚ)) : jsRound x ≤ n := by
  unfold jsRound
  have hlt : x + 1 / 2 < ((n + 1 : ℤ) : ℚ) := by push_cast; linarith
  exact Int.lt_add_one_iff.mp (Int.floor_lt.mpr hlt)

/-- Rounding an integer gives it back. -/
theorem jsRound_intCast (n : ℤ) : jsRound (n : ℚ) = n := by
  unfold jsRound
  rw [add_comm, Int.floor_add_int]
  norm_num

/-- Rounding a natural number gives it back. -/
theorem jsRound_natCast (n : ℕ) : jsRound (n : ℚ) = (n : ℤ) := by
  have h := jsRound_intCast (n : ℤ)
  rw [← h]
  norm_num

/-- Values already in [0, 100] are fixed by the clamp. -/
theorem clamp100_eq_self {n : ℤ} (h0 : 0 ≤ n) (h1 : n ≤ 100) : clamp100 n = n := by
  unfold clamp100
  rw [min_eq_right h1, max_eq_right h0]

/-- Rounding keeps values of [0, 100] inside [0, 100]. -/
theorem jsRound_mem_range {x : ℚ} (h0 : 0 ≤ x) (h1 : x ≤ 100) :
    0 ≤ jsRound x ∧ jsRound x ≤ 100 :=
  ⟨jsRound_nonneg h0, jsRound_le (by exact_mod_cast h1)⟩

/-- The implementation's review-health value is the rounded spec argument. -/
theorem calculateReviewHealthScore_eq (days totalReviews : ℕ) (r : ℚ) :
    calculateReviewHealthScore (days : ℚ) (totalReviews : ℚ) r =
      jsRound (reviewHealthArg days totalReviews r) := by
  unfold calculateReviewHealthScore reviewHealthArg
  dsimp only
  rw [calculateRotScore_eq_spec]
  congr 1
  push_cast
  ring

/-- Lower bound of the review-health argument. -/
theorem reviewHealthArg_nonneg (days totalReviews : ℕ) {r : ℚ} (h0 : 0 ≤ r) :
    0 ≤ reviewHealthArg days totalReviews r := by
  unfold reviewHealthArg
  have hrot : ((rotScoreSpec days : ℕ) : ℚ) ≤ 100 := by
    exact_mod_cast rotScoreSpec_le_100 days
  have hvol : (0 : ℚ) ≤ min 100 ((totalReviews : ℚ) / 100 * 100) :=
    le_min (by norm_num) (by positivity)
  have hq : (0 : ℚ) ≤ r / 5 * 100 := by positivity
  linarith

/-- Upper bound of the review-health argument. -/
theorem reviewHealthArg_le (days totalReviews : ℕ) {r : ℚ} (h5 : r ≤ 5) :
    reviewHealthArg days totalReviews r ≤ 100 := by
  unfold reviewHealthArg
  have hrot : (0 : ℚ) ≤ ((rotScoreSpec days : ℕ) : ℚ) := by positivity
  have hvol : min (100 : ℚ) ((totalReviews : ℚ) / 100 * 100) ≤ 100 := min_le_left _ _
  have hq : r / 5 * 100 ≤ 100 := by linarith
  linarith

/-- Range bound of the implementation's review-health score. -/
theorem reviewHealth_range (days totalReviews : ℕ) {r : ℚ} (h0 : 0 ≤ r) (h5 : r ≤ 5) :
    0 ≤ calculateReviewHealthScore (days : ℚ) (totalReviews : ℚ) r ∧
      calculateReviewHealthScore (days : ℚ) (totalReviews : ℚ) r ≤ 100 := by
  rw [calculateReviewHealthScore_eq]
  exact jsRound_mem_range (reviewHealthArg_nonneg days totalReviews h0)
    (reviewHealthArg_le days totalReviews h5)

/-- The implementation agrees with the spec's review-health formula. -/
theorem reviewHealth_eq_spec (days totalReviews : ℕ) {r : ℚ} (h0 : 0 ≤ r) (h5 : r ≤ 5) :
    calculateReviewHealthScore (days : ℚ) (totalReviews : ℚ) r =
      reviewHealthSpec days totalReviews r := by
  rw [calculateReviewHealthScore_eq]
  unfold reviewHealthSpec
  rw [clamp100_eq_self (jsRound_nonneg (reviewHealthArg_nonneg days totalReviews h0))
    (jsRound_le (by exact_mod_cast reviewHealthArg_le days totalReviews h5))]

/-- Range bound of the overall score for sub-scores inside [0, 100]. -/
theorem overall_range {rh p ph rs : ℚ} (hrh0 : 0 ≤ rh) (hrh1 : rh ≤ 100)
    (hp0 : 0 ≤ p) (hp1 : p ≤ 100) (hph0 : 0 ≤ ph) (hph1 : ph ≤ 100)
    (hrs0 : 0 ≤ rs) (hrs1 : rs ≤ 100) :
    0 ≤ overallScore rh p ph rs ∧ overallScore rh p ph rs ≤ 100 := by
  unfold overallScore
  exact jsRound_mem_range (by linarith) (by linarith)

/-- The implementation's overall score agrees with the spec's clamped formula
whenever the four sub-scores are inside [0, 100]. -/
theorem overall_eq_spec {rh p ph rs : ℤ} (hrh0 : 0 ≤ rh) (hrh1 : rh ≤ 100)
    (hp0 : 0 ≤ p) (hp1 : p ≤ 100) (hph0 : 0 ≤ ph) (hph1 : ph ≤ 100)
    (hrs0 : 0 ≤ rs) (hrs1 : rs ≤ 100) :
    overallScore (rh : ℚ) (p : ℚ) (ph : ℚ) (rs : ℚ) = overallSpec rh p ph rs := by
  have h0 : (0 : ℚ) ≤ (rh : ℚ) * 0.35 + (p : ℚ) * 0.25 + (ph : ℚ) * 0.20 + (rs : ℚ) * 0.20 := by
    have : (0 : ℚ) ≤ (rh : ℚ) := by exact_mod_cast hrh0
    have : (0 : ℚ) ≤ (p : ℚ) := by exact_mod_cast hp0
    have : (0 : ℚ) ≤ (ph : ℚ) := by exact_mod_cast hph0
    have : (0 : ℚ) ≤ (rs : ℚ) := by exact_mod_cast hrs0
    linarith
  have h1 : (rh : ℚ) * 0.35 + (p : ℚ) * 0.25 + (ph : ℚ) * 0.20 + (rs : ℚ) * 0.20
      ≤ ((100 : ℤ) : ℚ) := by
    have : (rh : ℚ) ≤ 100 := by exact_mod_cast hrh1
    have : (p : ℚ) ≤ 100 := by exact_mod_cast hp1
    have : (ph : ℚ) ≤ 100 := by exact_mod_cast hph1
    have : (rs : ℚ) ≤ 100 := by exact_mod_cast hrs1
    push_cast
    linarith
  unfold overallScore overallSpec
  rw [clamp100_eq_self (jsRound_nonneg h0) (jsRound_le h1)]

/-- Concrete review-health evaluation: fresh, voluminous, five-star input. -/
theorem reviewHealth_at_0_100_5 : calculateReviewHealthScore 0 100 5 = 100 := by
  have h := calculateReviewHealthScore_eq 0 100 5
  norm_num at h
  rw [h]
  have harg : reviewHealthArg 0 100 5 = 100 := by
    unfold reviewHealthArg
    rw [show rotScoreSpec 0 = 0 by decide]
    norm_num
  rw [harg]
  exact_mod_cast jsRound_intCast 100

/-- Concrete review-health evaluation: stale sentinel input with no reviews. -/
theorem reviewHealth_at_999_0_0 : calculateReviewHealthScore 999 0 0 = 0 := by
  have h := calculateReviewHealthScore_eq 999 0 0
  norm_num at h
  rw [h]
  have harg : reviewHealthArg 999 0 0 = 0 := by
    unfold reviewHealthArg
    rw [rotScoreSpec_eq_100 999 (by norm_num)]
    norm_num
  rw [harg]
  exact_mod_cast jsRound_intCast 0

/-- Input record of `calculateProfileScore` in `src/unnamed/part_001`
(lines 49-132). Each field models the JS truthiness of the corresponding
property of the SerpAPI place object: a `Bool` field is the truthiness of the
property, an `Option` field is `none` exactly when the property is absent or
falsy and `some v` when it holds the (truthy) value `v`. -/
structure PlaceData where
  title : Bool
  address : Option String
  phone : Bool
  website : Bool
  hours : Bool
  operating_hours : Bool
  description : Option String
  types : Option (List String)
  service_options : Bool
  extensions : Bool

/-- Return record of `calculateProfileScore`. -/
structure ProfileScoreResult where
  score : ℤ
  issues : List String
  recommendations : List String

/-- Function `calculateProfileScore` from `src/unnamed/part_001` (lines 49-132):
a checklist-style additive scorer; every branch mirrors the source's sequence
of `score += ...` / `issues.push(...)` / `recommendations.push(...)` updates,
and `maxScore` accumulates to the fixed total of 100. -/
def calculateProfileScore (placeData : PlaceData) : ProfileScoreResult :=
  let nameScore : ℕ := if placeData.title then 10 else 0
  let nameIssues : List String := if placeData.title then [] else ["Missing business name"]
  let addressScore : ℕ :=
    if placeData.address ≠ none ∧ placeData.address ≠ some "Service area business" then 10
    else 5
  let phoneScore : ℕ := if placeData.phone then 15 else 0
  let phoneIssues : List String := if placeData.phone then [] else ["Missing phone number"]
  let phoneRecs : List String :=
    if placeData.phone then [] else ["Add your phone number to your GBP profile"]
  let websiteScore : ℕ := if placeData.website then 15 else 0
  let websiteIssues : List String := if placeData.website then [] else ["Missing website"]
  let websiteRecs : List String :=
    if placeData.website then [] else ["Add your website URL to capture more leads"]
  let hoursScore : ℕ := if placeData.hours || placeData.operating_hours then 15 else 0
  let hoursIssues : List String :=
    if placeData.hours || placeData.operating_hours then [] else ["Missing business hours"]
  let hoursRecs : List String :=
    if placeData.hours || placeData.operating_hours then []
    else ["Add your operating hours - customers need to know when you\x27re available"]
  let descScore : ℕ :=
    match placeData.description with
    | some d => if d.length > 50 then 10 else 5
    | none => 0
  let descIssues : List String :=
    match placeData.description with
    | some _ => []
    | none => ["Missing business description"]
  let descRecs : List String :=
    match placeData.description with
    | some d =>
      if d.length > 50 then []
      else ["Expand your business description (aim for 250+ characters)"]
    | none => ["Add a detailed business description with your services and service area"]
  let typesScore : ℕ :=
    match placeData.types with
    | some t => if t.length ≥ 3 then 15 else if t.length ≥ 1 then 8 else 0
    | none => 0
  let typesIssues : List String :=
    match placeData.types with
    | some t =>
      if t.length ≥ 3 then []
      else if t.length ≥ 1 then []
      else ["Missing business categories"]
    | none => ["Missing business categories"]
  let typesRecs : List String :=
    match placeData.types with
    | some t =>
      if t.length ≥ 3 then []
      else if t.length ≥ 1 then
        ["Add more business categories (you have " ++ toString t.length ++ ", aim for 3-5)"]
      else ["Add relevant business categories to appear in more searches"]
    | none => ["Add relevant business categories to appear in more searches"]
  let attrScore : ℕ := if placeData.service_options || placeData.extensions then 10 else 0
  let attrRecs : List String :=
    if placeData.service_options || placeData.extensions then []
    else ["Add service attributes (24/7, emergency service, free estimates, etc.)"]
  let score := nameScore + addressScore + phoneScore + websiteScore + hoursScore + descScore +
    typesScore + attrScore
  let maxScore : ℕ := 10 + 10 + 15 + 15 + 15 + 10 + 15 + 10
  { score := jsRound ((score : ℚ) / (maxScore : ℚ) * 100),
    issues := nameIssues ++ phoneIssues ++ websiteIssues ++ hoursIssues ++ descIssues ++
      typesIssues,
    recommendations := phoneRecs ++ websiteRecs ++ hoursRecs ++ descRecs ++ typesRecs ++
      attrRecs }

/-- Natural-number mirror of the accumulated profile points of
`calculateProfileScore` (out of the fixed 100-point budget). -/
def profileTotal (placeData : PlaceData) : ℕ :=
  (if placeData.title then 10 else 0) +
  (if placeData.address ≠ none ∧ placeData.address ≠ some "Service area business" then 10
   else 5) +
  (if placeData.phone then 15 else 0) +
  (if placeData.website then 15 else 0) +
  (if placeData.hours || placeData.operating_hours then 15 else 0) +
  (match placeData.description with
   | some d => if d.length > 50 then 10 else 5
   | none => 0) +
  (match placeData.types with
   | some t => if t.length ≥ 3 then 15 else if t.length ≥ 1 then 8 else 0
   | none => 0) +
  (if placeData.service_options || placeData.extensions then 10 else 0)

/-- Bridge lemma: the profile score is exactly the accumulated points, because
the point budget is 100 and `round(total / 100 * 100) = total`. -/
theorem calculateProfileScore_score (placeData : PlaceData) :
    (calculateProfileScore placeData).score = (profileTotal placeData : ℤ) := by
  unfold calculateProfileScore profileTotal
  dsimp only
  rw [show ((10 + 10 + 15 + 15 + 15 + 10 + 15 + 10 : ℕ) : ℚ) = 100 by norm_num]
  rw [div_mul_cancel₀ _ (by norm_num : (100 : ℚ) ≠ 0)]
  exact jsRound_natCast _

/-- The accumulated profile points always lie in [5, 100]: the address check
contributes at least 5 in both of its branches and every other check is
nonnegative and bounded by its budget line. -/
theorem profileTotal_bounds (placeData : PlaceData) :
    5 ≤ profileTotal placeData ∧ profileTotal placeData ≤ 100 := by
  obtain ⟨t, addr, ph, w, h, oh, desc, ty, so, ex⟩ := placeData
  unfold profileTotal
  dsimp only
  cases desc <;> cases ty <;> dsimp only <;> split_ifs <;> omega

/-- Place record with every field absent or falsy. -/
def emptyPlaceData : PlaceData :=
  { title := false, address := none, phone := false, website := false, hours := false,
    operating_hours := false, description := none, types := none, service_options := false,
    extensions := false }

/-- Fully populated place record: every field present, a description longer
than the 50-character cutoff and at least three categories. -/
def fullPlaceData : PlaceData :=
  { title := true, address := some "123 Main St, St. Charles, MO", phone := true,
    website := true, hours := true, operating_hours := true,
    description := some "Family-owned plumbing company serving the greater metro area since 1985.",
    types := some ["plumber", "contractor", "emergency service"], service_options := true,
    extensions := false }

/-- Return record of `calculatePhotoScore`. -/
structure PhotoScoreResult where
  score : ℤ
  issues : List String
  recommendations : List String
  count : ℕ

/-- Function `calculatePhotoScore` from `src/unnamed/part_001` (lines 135-160);
its second parameter `photoData` is unused in the source and is omitted. -/
def calculatePhotoScore (photoCount : ℕ) : PhotoScoreResult :=
  if photoCount ≥ 50 then
    { score := 100, issues := [], recommendations := [], count := photoCount }
  else if photoCount ≥ 25 then
    { score := 75, issues := [],
      recommendations := ["Add " ++ toString (50 - photoCount) ++
        " more photos to reach optimal level"],
      count := photoCount }
  else if photoCount ≥ 10 then
    { score := 50, issues := ["Low photo count"],
      recommendations := ["Businesses with 50+ photos get 520% more calls - add more photos!"],
      count := photoCount }
  else if photoCount ≥ 1 then
    { score := 25, issues := ["Very few photos"],
      recommendations :=
        ["URGENT: Add more photos immediately - you\x27re missing significant visibility"],
      count := photoCount }
  else
    { score := 0, issues := ["NO PHOTOS"],
      recommendations :=
        ["CRITICAL: Add photos NOW - profiles without photos get 42% fewer requests for directions"],
      count := photoCount }

/-- Review record: the flag models the JS truthiness of `review.response`. -/
structure Review where
  response : Bool

/-- Return record of `calculateResponseScore`. -/
structure ResponseScoreResult where
  score : ℤ
  responseRate : ℤ
  issues : List String
  recommendations : List String

/-- Function `calculateResponseScore` from `src/unnamed/part_001`
(lines 163-191): the share of reviews carrying an owner response, as a rounded
percentage; the `forEach` counting loop is modelled by `countP`. -/
def calculateResponseScore (reviews : List Review) : ResponseScoreResult :=
  if reviews.length = 0 then
    { score := 0, responseRate := 0,
      issues := ["No reviews to respond to"],
      recommendations := ["Get your first reviews, then respond to 100% of them"] }
  else
    let responsesFound : ℕ := reviews.countP (fun review => review.response)
    let responseRate : ℤ := jsRound ((responsesFound : ℚ) / (reviews.length : ℚ) * 100)
    let score : ℤ := responseRate
    let issues : List String :=
      if responseRate < 50 then ["Only " ++ toString responseRate ++ "% response rate"]
      else []
    let recommendations : List String :=
      if responseRate < 50 then ["Respond to ALL reviews - both positive and negative"]
      else if responseRate < 100 then
        ["You\x27re at " ++ toString responseRate ++ "% response rate - aim for 100%"]
      else []
    { score := score, responseRate := responseRate, issues := issues,
      recommendations := recommendations }

/-- Range bound of the photo score. -/
theorem photo_range (photoCount : ℕ) :
    0 ≤ (calculatePhotoScore photoCount).score ∧ (calculatePhotoScore photoCount).score ≤ 100 := by
  unfold calculatePhotoScore
  split_ifs <;> exact ⟨by norm_num, by norm_num⟩

/-- Range bound of the response score. -/
theorem response_range (reviews : List Review) :
    0 ≤ (calculateResponseScore reviews).score ∧
      (calculateResponseScore reviews).score ≤ 100 := by
  unfold calculateResponseScore
  split_ifs with h
  · exact ⟨by norm_num, by norm_num⟩
  · dsimp only
    have hn : 0 < reviews.length := Nat.pos_of_ne_zero h
    have hn' : (0 : ℚ) < (reviews.length : ℚ) := by exact_mod_cast hn
    have hc : reviews.countP (fun review => review.response) ≤ reviews.length :=
      List.countP_le_length _
    apply jsRound_mem_range
    · positivity
    · have h1 : ((reviews.countP (fun review => review.response) : ℕ) : ℚ) /
          (reviews.length : ℚ) ≤ 1 := by
        rw [div_le_one hn']
        exact_mod_cast hc
      linarith

/-- Request body of the calculate-rot endpoints: an `Option` field is `none`
exactly when the property is absent or falsy (the JS guard `!email`). -/
structure RequestBody where
  email : Option String
  businessName : Option String

/-- Response envelope of a calculate-rot handler: HTTP status, the `success`
flag and the `found` flag of the JSON body (`none` when the body carries no
`found` field, as in the validation branch). -/
structure ApiResponse where
  status : ℕ
  success : Bool
  found : Option Bool
deriving DecidableEq

/-- Envelope of `POST /api/calculate-rot` in `src/server.js` (lines 347-455)
as a function of the request fields and the lookup outcome: missing fields give
a 400 with `success: false`; the not-found branch (lines 369-393) returns
`res.json({success: false, found: false, ...})`, an HTTP 200; the found branch
returns `success: true, found: true`. -/
def serverCalculateRotResponse (req : RequestBody) (businessFound : Bool) : ApiResponse :=
  if req.email = none ∨ req.businessName = none then ⟨400, false, none⟩
  else if !businessFound then ⟨200, false, some false⟩
  else ⟨200, true, some true⟩

/-- Envelope of `POST /api/calculate-rot` in `src/unnamed/part_000`
(lines 191-287): the not-found branch (lines 209-234) returns
`res.json({success: true, found: false, ...})`. -/
def part000CalculateRotResponse (req : RequestBody) (businessFound : Bool) : ApiResponse :=
  if req.email = none ∨ req.businessName = none then ⟨400, false, none⟩
  else if !businessFound then ⟨200, true, some false⟩
  else ⟨200, true, some true⟩

/-- Envelope of `POST /api/calculate-rot` in `src/unnamed/part_001`
(lines 393-482): the not-found branch (lines 409-427) returns
`res.json({success: true, found: false, ...})`. -/
def part001CalculateRotResponse (req : RequestBody) (businessFound : Bool) : ApiResponse :=
  if req.email = none ∨ req.businessName = none then ⟨400, false, none⟩
  else if !businessFound then ⟨200, true, some false⟩
  else ⟨200, true, some true⟩

/-- Hot-lead threshold of the `src/server.js` configuration (line 48). -/
def hotLeadThreshold : ℤ := 60

/-- Whether `sendSlackAlert` in `src/server.js` (lines 257-267) reaches its
delivery attempt: it returns early when the webhook is not configured or when
`leadData.rotScore < config.hotLeadThreshold`. -/
def serverSendSlackAlertFires (slackConfigured : Bool) (rotScore : ℤ) : Bool :=
  if slackConfigured = false then false
  else if rotScore < hotLeadThreshold then false
  else true

/-- Whether `sendSlackAlert` in `src/unnamed/part_000` (lines 168-169) reaches
its delivery attempt: `if (!SLACK_WEBHOOK_URL || leadData.rotScore < 60) return`. -/
def part000SendSlackAlertFires (slackConfigured : Bool) (rotScore : ℤ) : Bool :=
  if slackConfigured = false ∨ rotScore < 60 then false else true

/-- Whether the `/api/calculate-rot` handler of `src/unnamed/part_001`
(line 474) delivers a Slack alert: the call site is guarded by
`if (rotScore >= 60)`, and `sendSlackAlert` itself (line 367) returns early
unless the webhook is configured. -/
def part001CalcRotSlackFires (slackConfigured : Bool) (rotScore : ℤ) : Bool :=
  if 60 ≤ rotScore then (if slackConfigured = false then false else true) else false

/-- Whether the `/api/full-audit` handler of `src/unnamed/part_001`
(lines 704-707) delivers a Slack alert: the call site is guarded by
`if (overallScore < 50)`, and `sendSlackAlert` (line 367) returns early unless
the webhook is configured. -/
def part001FullAuditSlackFires (slackConfigured : Bool) (overallScore : ℤ) : Bool :=
  if overallScore < 50 then (if slackConfigured = false then false else true) else false

/-- Symbolic result of `parseRelativeDate` (`src/unnamed/part_001`,
lines 203-242). With `now` the instant captured at entry, `nullDate` denotes
the JS `null` result, `nowDate` denotes `now`, `daysAgo n` denotes
`new Date(now - n * 24 * 60 * 60 * 1000)` (exactly `n` 24-hour days before
`now`), `weeksAgo n` denotes `new Date(now - n * 7 * 24 * 60 * 60 * 1000)`,
and `monthsAgo n` / `yearsAgo n` denote the calendar subtractions performed
with `setMonth` / `setFullYear`. -/
inductive ParsedDate where
  | nullDate : ParsedDate
  | nowDate : ParsedDate
  | daysAgo : ℕ → ParsedDate
  | weeksAgo : ℕ → ParsedDate
  | monthsAgo : ℕ → ParsedDate
  | yearsAgo : ℕ → ParsedDate
deriving DecidableEq

/-- Numeric value of a run of decimal digits, as `parseInt` computes it. -/
def digitsVal (l : List Char) : ℕ :=
  l.foldl (fun acc c => acc * 10 + (c.toNat - 48)) 0

/-- First maximal run of decimal digits of the character list, as the JS regex
match against `(\d+)` finds it; `none` when the list has no digit. -/
def firstNumber (l : List Char) : Option ℕ :=
  let t := l.dropWhile (fun c => !c.isDigit)
  if t.isEmpty then none
  else some (digitsVal (t.takeWhile Char.isDigit))

/-- Function `parseRelativeDate` from `src/unnamed/part_001` (lines 203-242).
The guard `if (!relativeStr) return null` is the empty-string test; the
`str.includes(pat)` tests are infix tests on the lowercased character list
(`Char.toLower` agrees with JS `toLowerCase` on the ASCII strings these
handlers see); `match ? parseInt(match[1]) : 1` is `(firstNumber str).getD 1`. -/
def parseRelativeDate (relativeStr : String) : ParsedDate :=
  if relativeStr = "" then ParsedDate.nullDate
  else
    let str := relativeStr.toList.map Char.toLower
    if "hour".toList <:+: str ∨ "minute".toList <:+: str ∨ "second".toList <:+: str then
      ParsedDate.nowDate
    else if "day".toList <:+: str then
      ParsedDate.daysAgo ((firstNumber str).getD 1)
    else if "week".toList <:+: str then
      ParsedDate.weeksAgo ((firstNumber str).getD 1)
    else if "month".toList <:+: str then
      ParsedDate.monthsAgo ((firstNumber str).getD 1)
    else if "year".toList <:+: str then
      ParsedDate.yearsAgo ((firstNumber str).getD 1)
    else ParsedDate.nullDate

/-- Range bound of the round-based rot score at natural-number inputs. -/
theorem calculateRotScore_range (d : ℕ) :
    0 ≤ calculateRotScore (d : ℚ) ∧ calculateRotScore (d : ℚ) ≤ 100 := by
  rw [calculateRotScore_eq_spec]
  constructor
  · positivity
  · exact_mod_cast rotScoreSpec_le_100 d

/-- Range bound of the profile score. -/
theorem profile_range (placeData : PlaceData) :
    0 ≤ (calculateProfileScore placeData).score ∧
      (calculateProfileScore placeData).score ≤ 100 := by
  rw [calculateProfileScore_score]
  have h := profileTotal_bounds placeData
  constructor
  · positivity
  · exact_mod_cast h.2

/-- Monotonicity of the round-based rot score at natural-number inputs. -/
theorem calculateRotScore_mono_nat {d1 d2 : ℕ} (h : d1 ≤ d2) :
    calculateRotScore (d1 : ℚ) ≤ calculateRotScore (d2 : ℚ) := by
  rw [calculateRotScore_eq_spec, calculateRotScore_eq_spec]
  exact_mod_cast rotScoreSpec_mono h

/-- Monotonicity of the server rot score at natural-number inputs. -/
theorem calculateRotScoreServer_mono_nat {d1 d2 : ℕ} (h : d1 ≤ d2) :
    (calculateRotScoreServer (d1 : ℚ)).rotScore ≤ (calculateRotScoreServer (d2 : ℚ)).rotScore := by
  rw [calculateRotScoreServer_eq_nat, calculateRotScoreServer_eq_nat]
  exact_mod_cast serverRotNat_mono h

/-- Value of the server variant at day 14. -/
theorem server_at_14 : (calculateRotScoreServer ((14 : ℕ) : ℚ)).rotScore = 9 := by
  rw [calculateRotScoreServer_eq_nat 14, show serverRotNat 14 = 9 by decide]
  norm_num

/-- Claim C1 counterexample: at day 14 the `src/server.js` implementation of
`calculateRotScore` returns 9 while the claimed band formula gives 10, so the
formulas do not hold for each implementation. -/
theorem rotScore_formulas_cex :
    (calculateRotScoreServer ((14 : ℕ) : ℚ)).rotScore = 9 ∧ rotScoreSpec 14 = 10 ∧
      (calculateRotScoreServer ((14 : ℕ) : ℚ)).rotScore ≠ (rotScoreSpec 14 : ℤ) := by
  refine ⟨server_at_14, by decide, ?_⟩
  rw [server_at_14, show rotScoreSpec 14 = 10 by decide]
  norm_num

/-- Claim C1 (amended): the round-based `calculateRotScore` of
`part_000`/`part_001` satisfies the spec's five band formulas at every integer
day count, with `rotScore 0 = 0`, `rotScore 14 = 10` and `rotScore d = 100` for
every `d ≥ 100`; the floor-based `src/server.js` variant does not satisfy them
(it returns 9 at day 14). -/
theorem rotScore_formulas (d : ℕ) :
    calculateRotScore (d : ℚ) = (rotScoreSpec d : ℤ) ∧
      rotScoreSpec 0 = 0 ∧ rotScoreSpec 14 = 10 ∧
      (100 ≤ d → rotScoreSpec d = 100) ∧
      (calculateRotScoreServer ((14 : ℕ) : ℚ)).rotScore = 9 :=
  ⟨calculateRotScore_eq_spec d, by decide, by decide, fun h => rotScoreSpec_eq_100 d h,
    server_at_14⟩

/-- Witness for C1 at day 120. -/
theorem rotScore_formulas_witness :
    (100 ≤ 120) ∧ calculateRotScore ((120 : ℕ) : ℚ) = (rotScoreSpec 120 : ℤ) ∧
      rotScoreSpec 120 = 100 :=
  ⟨by norm_num, (rotScore_formulas 120).1, (rotScore_formulas 120).2.2.2.1 (by norm_num)⟩

/-- Claim C2: both implementations of `calculateRotScore` are monotonically
non-decreasing in the integer days-since-last-review, across all band seams. -/
theorem rotScore_monotone (d1 d2 : ℕ) (h : d1 ≤ d2) :
    calculateRotScore (d1 : ℚ) ≤ calculateRotScore (d2 : ℚ) ∧
      (calculateRotScoreServer (d1 : ℚ)).rotScore ≤ (calculateRotScoreServer (d2 : ℚ)).rotScore :=
  ⟨calculateRotScore_mono_nat h, calculateRotScoreServer_mono_nat h⟩

/-- Witness for C2 across the 14/15 seam. -/
theorem rotScore_monotone_witness :
    (14 ≤ 15) ∧ calculateRotScore ((14 : ℕ) : ℚ) ≤ calculateRotScore ((15 : ℕ) : ℚ) :=
  ⟨by norm_num, (rotScore_monotone 14 15 (by norm_num)).1⟩

/-- Claim C3: for every valid snapshot (any integer day count, review count and
photo count, a rating in [0, 5], any review list, any place record) every
sub-score — rot, review health, profile, photo, response — and the overall
weighted score computed from those four sub-scores lie in [0, 100]. -/
theorem subscores_in_range (days totalReviews photoCount : ℕ) (avgRating : ℚ)
    (reviews : List Review) (placeData : PlaceData)
    (h0 : 0 ≤ avgRating) (h5 : avgRating ≤ 5) :
    (0 ≤ calculateRotScore (days : ℚ) ∧ calculateRotScore (days : ℚ) ≤ 100) ∧
    (0 ≤ calculateReviewHealthScore (days : ℚ) (totalReviews : ℚ) avgRating ∧
      calculateReviewHealthScore (days : ℚ) (totalReviews : ℚ) avgRating ≤ 100) ∧
    (0 ≤ (calculateProfileScore placeData).score ∧
      (calculateProfileScore placeData).score ≤ 100) ∧
    (0 ≤ (calculatePhotoScore photoCount).score ∧
      (calculatePhotoScore photoCount).score ≤ 100) ∧
    (0 ≤ (calculateResponseScore reviews).score ∧
      (calculateResponseScore reviews).score ≤ 100) ∧
    (0 ≤ overallScore
        ((calculateReviewHealthScore (days : ℚ) (totalReviews : ℚ) avgRating : ℤ) : ℚ)
        (((calculateProfileScore placeData).score : ℤ) : ℚ)
        (((calculatePhotoScore photoCount).score : ℤ) : ℚ)
        (((calculateResponseScore reviews).score : ℤ) : ℚ) ∧
      overallScore
        ((calculateReviewHealthScore (days : ℚ) (totalReviews : ℚ) avgRating : ℤ) : ℚ)
        (((calculateProfileScore placeData).score : ℤ) : ℚ)
        (((calculatePhotoScore photoCount).score : ℤ) : ℚ)
        (((calculateResponseScore reviews).score : ℤ) : ℚ) ≤ 100) := by
  have hrot := calculateRotScore_range days
  have hrh := reviewHealth_range days totalReviews h0 h5
  have hpr := profile_range placeData
  have hph := photo_range photoCount
  have hrs := response_range reviews
  refine ⟨hrot, hrh, hpr, hph, hrs, ?_⟩
  exact overall_range (by exact_mod_cast hrh.1) (by exact_mod_cast hrh.2)
    (by exact_mod_cast hpr.1) (by exact_mod_cast hpr.2)
    (by exact_mod_cast hph.1) (by exact_mod_cast hph.2)
    (by exact_mod_cast hrs.1) (by exact_mod_cast hrs.2)

/-- Witness for C3 at the all-zero boundary snapshot. -/
theorem subscores_in_range_witness :
    ((0 : ℚ) ≤ 0) ∧ ((0 : ℚ) ≤ 5) ∧
      (0 ≤ (calculateProfileScore emptyPlaceData).score ∧
        (calculateProfileScore emptyPlaceData).score ≤ 100) :=
  ⟨by norm_num, by norm_num,
    (subscores_in_range 0 0 0 0 [] emptyPlaceData (by norm_num) (by norm_num)).2.2.1⟩

/-- Claim C4: the review-health score equals the spec's weighted formula
(0.4 freshness, 0.3 volume, 0.3 quality, rounded, clamped to [0, 100]) at every
valid input, and yields 100 at (0, 100, 5) and 0 at (999, 0, 0). -/
theorem reviewHealth_formula (days totalReviews : ℕ) (avgRating : ℚ)
    (h0 : 0 ≤ avgRating) (h5 : avgRating ≤ 5) :
    calculateReviewHealthScore (days : ℚ) (totalReviews : ℚ) avgRating =
      reviewHealthSpec days totalReviews avgRating ∧
    calculateReviewHealthScore 0 100 5 = 100 ∧ calculateReviewHealthScore 999 0 0 = 0 :=
  ⟨reviewHealth_eq_spec days totalReviews h0 h5, reviewHealth_at_0_100_5,
    reviewHealth_at_999_0_0⟩

/-- Witness for C4 at (10, 80, 4.8). -/
theorem reviewHealth_formula_witness :
    ((0 : ℚ) ≤ 4.8) ∧ ((4.8 : ℚ) ≤ 5) ∧
      calculateReviewHealthScore ((10 : ℕ) : ℚ) ((80 : ℕ) : ℚ) 4.8 =
        reviewHealthSpec 10 80 4.8 :=
  ⟨by norm_num, by norm_num, (reviewHealth_formula 10 80 4.8 (by norm_num) (by norm_num)).1⟩

/-- Claim C5: for sub-scores inside [0, 100], the overall score of the
full-audit endpoint equals the spec's clamped 35/25/20/20 weighted formula; it
is a function of exactly those four sub-scores. -/
theorem overall_formula (reviewHealth profile photo response : ℤ)
    (h1 : 0 ≤ reviewHealth) (h2 : reviewHealth ≤ 100) (h3 : 0 ≤ profile) (h4 : profile ≤ 100)
    (h5 : 0 ≤ photo) (h6 : photo ≤ 100) (h7 : 0 ≤ response) (h8 : response ≤ 100) :
    overallScore (reviewHealth : ℚ) (profile : ℚ) (photo : ℚ) (response : ℚ) =
      overallSpec reviewHealth profile photo response :=
  overall_eq_spec h1 h2 h3 h4 h5 h6 h7 h8

/-- Witness for C5 at (80, 100, 100, 80). -/
theorem overall_formula_witness :
    ((0 : ℤ) ≤ 80) ∧ ((80 : ℤ) ≤ 100) ∧
      overallScore ((80 : ℤ) : ℚ) ((100 : ℤ) : ℚ) ((100 : ℤ) : ℚ) ((80 : ℤ) : ℚ) =
        overallSpec 80 100 100 80 :=
  ⟨by norm_num, by norm_num,
    overall_formula 80 100 100 80 (by norm_num) (by norm_num) (by norm_num) (by norm_num)
      (by norm_num) (by norm_num) (by norm_num) (by norm_num)⟩

/-- Claim C6 counterexample: the empty profile — whose address is absent and in
particular not marked as a service-area business — still earns the address
partial credit, so its profile score is 5, not 0. -/
theorem profileScore_empty_cex :
    emptyPlaceData.address = none ∧ (calculateProfileScore emptyPlaceData).score = 5 ∧
      (calculateProfileScore emptyPlaceData).score ≠ 0 := by
  have h : (calculateProfileScore emptyPlaceData).score = 5 := by
    rw [calculateProfileScore_score, show profileTotal emptyPlaceData = 5 by decide]
    norm_num
  refine ⟨rfl, h, ?_⟩
  rw [h]
  norm_num

/-- Claim C6 (amended): the profile scorer on an empty profile yields 5,
because the address check awards its 5-point partial credit in its else
branch, which covers a missing address as well as one equal to
"Service area business" — the credit is not limited to profiles explicitly
marked service-area; on a fully populated profile it yields exactly 100. -/
theorem profileScore_empty_and_full :
    (calculateProfileScore emptyPlaceData).score = 5 ∧
      (calculateProfileScore fullPlaceData).score = 100 ∧
      ∀ placeData : PlaceData,
        (calculateProfileScore { placeData with address := none }).score =
          (calculateProfileScore
            { placeData with address := some "Service area business" }).score := by
  refine ⟨?_, ?_, ?_⟩
  · rw [calculateProfileScore_score, show profileTotal emptyPlaceData = 5 by decide]
    norm_num
  · rw [calculateProfileScore_score, show profileTotal fullPlaceData = 100 by decide]
    norm_num
  · intro placeData
    obtain ⟨t, addr, ph, w, h, oh, desc, ty, so, ex⟩ := placeData
    rw [calculateProfileScore_score, calculateProfileScore_score]
    unfold profileTotal
    norm_num

/-- Claim C7 counterexample: in the `src/server.js` variant a valid request
whose business lookup yields nothing is answered with HTTP 200 but with
`success: false`, not with a successful envelope. -/
theorem notFound_envelope_cex :
    serverCalculateRotResponse ⟨some "lead@example.com", some "Acme Plumbing"⟩ false =
      ⟨200, false, some false⟩ ∧
    (serverCalculateRotResponse ⟨some "lead@example.com", some "Acme Plumbing"⟩ false).success
      = false := by
  decide

/-- Claim C7 (amended): for every request with both email and business name
present whose lookup yields nothing, the `part_000` and `part_001` handlers
answer HTTP 200 with `success: true`, `found: false`, while the
`src/server.js` handler answers HTTP 200 with `success: false`, `found: false`. -/
theorem notFound_envelope (req : RequestBody) (he : req.email ≠ none)
    (hb : req.businessName ≠ none) :
    part000CalculateRotResponse req false = ⟨200, true, some false⟩ ∧
      part001CalculateRotResponse req false = ⟨200, true, some false⟩ ∧
      serverCalculateRotResponse req false = ⟨200, false, some false⟩ := by
  refine ⟨?_, ?_, ?_⟩ <;>
    simp [part000CalculateRotResponse, part001CalculateRotResponse,
      serverCalculateRotResponse, he, hb]

/-- Witness for C7 at a concrete request. -/
theorem notFound_envelope_witness :
    ((⟨some "lead@example.com", some "Acme Plumbing"⟩ : RequestBody).email ≠ none) ∧
      part000CalculateRotResponse ⟨some "lead@example.com", some "Acme Plumbing"⟩ false =
        ⟨200, true, some false⟩ :=
  ⟨by decide,
    (notFound_envelope ⟨some "lead@example.com", some "Acme Plumbing"⟩ (by decide)
      (by decide)).1⟩

/-- Claim C8 counterexample: the GBP-audit variant delivers a Slack alert at
overall score 40, which does not cross the default-60 threshold, and delivers
none at overall score 80, which does cross it. -/
theorem slack_threshold_cex :
    part001FullAuditSlackFires true 40 = true ∧ (40 : ℤ) < 60 ∧
      part001FullAuditSlackFires true 80 = false ∧ (60 : ℤ) ≤ 80 := by
  refine ⟨by decide, by norm_num, by decide, by norm_num⟩

/-- Claim C8 (amended): the single-metric rot variants never deliver a Slack
alert for a rot score below 60 (`src/server.js` via its hotLeadThreshold of 60,
`part_000` via its literal guard, `part_001`'s rot endpoint via its call-site
check), while the GBP-audit variant delivers its alert exactly when the overall
score is below 50 and the webhook is configured — not when it crosses 60. -/
theorem slack_threshold (slackConfigured : Bool) (score : ℤ) :
    (score < 60 →
      serverSendSlackAlertFires slackConfigured score = false ∧
      part000SendSlackAlertFires slackConfigured score = false ∧
      part001CalcRotSlackFires slackConfigured score = false) ∧
    (part001FullAuditSlackFires slackConfigured score = true ↔
      score < 50 ∧ slackConfigured = true) := by
  constructor
  · intro h
    refine ⟨?_, ?_, ?_⟩
    · unfold serverSendSlackAlertFires hotLeadThreshold
      split_ifs <;> rfl
    · unfold part000SendSlackAlertFires
      rw [if_pos (Or.inr h)]
    · unfold part001CalcRotSlackFires
      rw [if_neg (by omega)]
  · unfold part001FullAuditSlackFires
    split_ifs <;> simp_all

/-- Witness for C8 at (configured, 59). -/
theorem slack_threshold_witness :
    ((59 : ℤ) < 60) ∧ part000SendSlackAlertFires true 59 = false :=
  ⟨by norm_num, ((slack_threshold true 59).1 (by norm_num)).2.1⟩

/-- Claim C9: for every input place record whatsoever — including one with
every field absent — the profile score is at least 5, because the address check
unconditionally awards at least its 5-point partial credit; the profile score
is never 0. -/
theorem profileScore_ge_five (placeData : PlaceData) :
    5 ≤ (calculateProfileScore placeData).score := by
  rw [calculateProfileScore_score]
  exact_mod_cast (profileTotal_bounds placeData).1

/-- Claim C10 counterexample: "HOURS day" contains the substring "day", none of
the substrings "hour", "minute", "second" (case-sensitively), and no decimal
digit, yet `parseRelativeDate` maps it to the current instant (because the code
lowercases first, and the lowercased string contains "hour"), not to one day
ago. -/
theorem parseRelativeDate_day_cex :
    ("day".toList <:+: "HOURS day".toList) ∧
      ¬ ("hour".toList <:+: "HOURS day".toList) ∧
      ¬ ("minute".toList <:+: "HOURS day".toList) ∧
      ¬ ("second".toList <:+: "HOURS day".toList) ∧
      (∀ c ∈ "HOURS day".toList, ¬ c.isDigit) ∧
      parseRelativeDate "HOURS day" = ParsedDate.nowDate ∧
      parseRelativeDate "HOURS day" ≠ ParsedDate.daysAgo 1 := by
  decide

/-- Claim C10 (amended): for every input string whose lowercased form contains
the substring "day" but none of "hour", "minute", "second", and contains no
decimal digit, `parseRelativeDate` returns the instant exactly one 24-hour day
before now (`daysAgo 1`); in particular "today", "yesterday" and lowercase
weekday names parse as one day ago rather than null. -/
theorem parseRelativeDate_day_only (s : String)
    (hday : "day".toList <:+: s.toList.map Char.toLower)
    (hhour : ¬ ("hour".toList <:+: s.toList.map Char.toLower))
    (hminute : ¬ ("minute".toList <:+: s.toList.map Char.toLower))
    (hsecond : ¬ ("second".toList <:+: s.toList.map Char.toLower))
    (hdigit : ∀ c ∈ s.toList.map Char.toLower, ¬ c.isDigit) :
    parseRelativeDate s = ParsedDate.daysAgo 1 := by
  have hs : s ≠ "" := by
    intro h
    subst h
    exact absurd hday (by decide)
  unfold parseRelativeDate
  rw [if_neg hs]
  dsimp only
  rw [if_neg (by tauto), if_pos hday]
  have hfn : firstNumber (s.toList.map Char.toLower) = none := by
    unfold firstNumber
    dsimp only
    have hd : (s.toList.map Char.toLower).dropWhile (fun c => !c.isDigit) = [] := by
      rw [List.dropWhile_eq_nil_iff]
      intro c hc
      have hnd := hdigit c hc
      simp only [Bool.not_eq_true] at hnd
      simp [hnd]
    rw [hd]
    rfl
  rw [hfn]
  rfl

/-- Witness for C10 at "yesterday". -/
theorem parseRelativeDate_day_only_witness :
    ("day".toList <:+: "yesterday".toList.map Char.toLower) ∧
      parseRelativeDate "yesterday" = ParsedDate.daysAgo 1 :=
  ⟨by decide,
    parseRelativeDate_day_only "yesterday" (by decide) (by decide) (by decide) (by decide)
      (by decide)⟩
